import Mathlib

/-!
# Verification of the Go-Prem-Stats exporter scrape pipeline

Shallow embedding of the scrape-extract-publish pipeline of the
Go-Prem-Stats repository (`src/exporter/main.go`).  The repository ships
three variants of the exporter in one concatenated source file:

* variant 1 (lines 1-276): per-table column-signature classification,
  retry loop inlined in `scrapeFBref`, metrics reset after a successful
  fetch and parse;
* variant 2 (lines 277-520): fixed table-ID lookups
  (`stats_standard_9`, `results2024-202591_overall`, `stats_keeper_9`),
  single fetch attempt;
* variant 3 (lines 521-737): `fetchHTML` retry helper (also retries on
  document-parse failure), comment-embedded table recovery
  (`extractCommentTables`), per-document column classification, metrics
  reset performed before the fetch, unparsable numeric cells published
  with the Go zero value 0.

HTML tables are modelled structurally: a cell carries whether it is a
`th` or `td` element, its `data-stat` attribute and its text; a table is
its id attribute, its header-row cells and its `tbody` rows.  goquery
`Find` calls over `th[data-stat=x]` / `td[data-stat=x]` become searches
over these cells, and `.Text()` of a match set is the concatenation of
the matched texts.  `strconv.ParseFloat` is modelled on its plain
decimal fragment (optional sign, digits, optional fractional part) into
`ℚ`; the exporter's cells only ever carry plain decimal or non-numeric
text, so exponent/hex/inf forms never arise.  Gauge vector state is an
association list from label tuples to values with last-write-wins
insertion, which is exactly prometheus `GaugeVec.WithLabelValues().Set`
semantics, and `Reset` empties the list.
-/

namespace PremStats

/-- One table cell: `isHeader` is true for a `th` element and false for
a `td` element, `stat` is the `data-stat` attribute, `text` its text. -/
structure Cell where
  isHeader : Bool
  stat : String
  text : String
deriving DecidableEq, Repr

/-- One HTML table: its `id` attribute, the header-row cells and the
`tbody` rows (each row a list of cells). -/
structure Table where
  id : String
  headRow : List Cell
  body : List (List Cell)
deriving DecidableEq, Repr

/-- A parsed document is its tables in document order. -/
abbrev Doc := List Table

/-- Text of `row.Find("th/td[data-stat=stat]").Text()`: concatenation of
the texts of the row's matching cells (empty when nothing matches). -/
def rowText (hdr : Bool) (stat : String) (row : List Cell) : String :=
  String.join ((row.filter (fun c => c.isHeader == hdr && c.stat == stat)).map Cell.text)

/-- Whether `table.Find("th/td[data-stat=stat]").Length() > 0`: the
selector scans the whole table, header row and body rows alike. -/
def tableHasCell (hdr : Bool) (stat : String) (t : Table) : Bool :=
  (t.headRow ++ t.body.flatten).any (fun c => c.isHeader == hdr && c.stat == stat)

/-- Whether `doc.Find("th/td[data-stat=stat]").Length() > 0` over a whole
document (variant 3 classifies per document, not per table). -/
def docHasCell (hdr : Bool) (stat : String) (d : Doc) : Bool :=
  d.any (tableHasCell hdr stat)

/-- All `tbody tr` rows of a document, in document order. -/
def docRows (d : Doc) : List (List Cell) :=
  (d.map Table.body).flatten

/-- Model of `strings.TrimSpace`: strip leading and trailing whitespace
characters. -/
def trimGo (s : String) : String :=
  ⟨((s.toList.dropWhile Char.isWhitespace).reverse.dropWhile Char.isWhitespace).reverse⟩

/-- The trimmed text of a row's cell, `strings.TrimSpace(s.Find("th/td[data-stat=stat]").Text())`. -/
def cellText (hdr : Bool) (stat : String) (row : List Cell) : String :=
  trimGo (rowText hdr stat row)

/-- Digit list to natural number. -/
def digitsToNat (l : List Char) : Nat :=
  l.foldl (fun n c => 10 * n + (c.toNat - 48)) 0

/-- Model of `strconv.ParseFloat` on its decimal fragment: optional
sign, integer digits, optional fractional digits; anything else
(including the empty string) fails.  The exporter compares the parse
error against nil, so the result is an `Option`. -/
def parseDec (s : String) : Option ℚ :=
  let cs := s.toList
  let neg : Bool := match cs with
    | '-' :: _ => true
    | _ => false
  let digitsPart : List Char := match cs with
    | '-' :: r => r
    | '+' :: r => r
    | r => r
  let intPart := digitsPart.takeWhile Char.isDigit
  let rest := digitsPart.dropWhile Char.isDigit
  match rest with
  | [] =>
      if intPart.isEmpty then none
      else some (if neg then -(digitsToNat intPart : ℚ) else (digitsToNat intPart : ℚ))
  | '.' :: fr =>
      if fr.all Char.isDigit && !(intPart.isEmpty && fr.isEmpty) then
        some ((if neg then -1 else 1) *
          ((digitsToNat intPart : ℚ) + (digitsToNat fr : ℚ) / (10 ^ fr.length)))
      else none
  | _ => none

/-- A labelled gauge family with a (player, team) label pair:
association list, most recent write first. -/
abbrev Fam2 := List ((String × String) × ℚ)

/-- A labelled gauge family with a single team label. -/
abbrev Fam1 := List (String × ℚ)

/-- `WithLabelValues(k).Set(v)` for a two-label family: last write wins. -/
def setFam2 (m : Fam2) (k : String × String) (v : ℚ) : Fam2 :=
  (k, v) :: m.filter (fun p => !(p.1 == k))

/-- `WithLabelValues(k).Set(v)` for a one-label family: last write wins. -/
def setFam1 (m : Fam1) (k : String) (v : ℚ) : Fam1 :=
  (k, v) :: m.filter (fun p => !(p.1 == k))

/-- Current value of a two-label family at a label pair, if set. -/
def getFam2 (m : Fam2) (k : String × String) : Option ℚ :=
  (m.find? (fun p => p.1 == k)).map Prod.snd

/-- Current value of a one-label family at a label, if set. -/
def getFam1 (m : Fam1) (k : String) : Option ℚ :=
  (m.find? (fun p => p.1 == k)).map Prod.snd

/-- The exporter's full registered gauge state: the nine stats families
plus the two unlabeled health gauges. -/
structure GaugeState where
  topScorer : Fam2
  topAssists : Fam2
  cleanSheets : Fam2
  teamPoints : Fam1
  teamGoalsFor : Fam1
  teamGoalsAgainst : Fam1
  teamWins : Fam1
  teamDraws : Fam1
  teamLosses : Fam1
  scrapeSuccess : ℚ
  scrapeDuration : ℚ
deriving DecidableEq, Repr

/-- Registry state at process start: empty families, plain gauges 0. -/
def initState : GaugeState :=
  ⟨[], [], [], [], [], [], [], [], [], 0, 0⟩

/-- The begin-cycle reset block (`topScorer.Reset()` ... `teamLosses.Reset()`):
clears the nine stats families and touches nothing else. -/
def resetStats (g : GaugeState) : GaugeState :=
  { g with
    topScorer := [], topAssists := [], cleanSheets := [],
    teamPoints := [], teamGoalsFor := [], teamGoalsAgainst := [],
    teamWins := [], teamDraws := [], teamLosses := [] }

/-- The row-count diagnostics logged at the end of a cycle. -/
structure Counts where
  players : Nat
  teams : Nat
  gks : Nat
deriving DecidableEq, Repr

/-- Zero counts at the start of a cycle. -/
def Counts.zero : Counts := ⟨0, 0, 0⟩

/-- One `if v, err := strconv.ParseFloat(txt, 64); err == nil { fam.WithLabelValues(k).Set(v) }`
block on a two-label family: the family is updated only when the text
parses, otherwise it is left exactly as it was. -/
def condSet2 (fam : Fam2) (k : String × String) (txt : String) : Fam2 :=
  match parseDec txt with
  | some v => setFam2 fam k v
  | none => fam

/-- The same guarded-set block on a one-label family. -/
def condSet1 (fam : Fam1) (k : String) (txt : String) : Fam1 :=
  match parseDec txt with
  | some v => setFam1 fam k v
  | none => fam

/-! ## Variant 1 (lines 114-245): per-table signature classification -/

/-- One `tbody tr` of a player-schema table in variant 1 (lines 168-185):
trim the identity and numeric cell texts, drop the row when an identity
field is blank, set each gauge only when its cell parses (two
independent guarded `Set` blocks on distinct families), and count the
row unconditionally once the identity check passed. -/
def v1playerRow (acc : GaugeState × Counts) (row : List Cell) : GaugeState × Counts :=
  let player := cellText false "player" row
  let team := cellText false "team" row
  if player == "" || team == "" then acc
  else
    ({ acc.1 with
        topScorer := condSet2 acc.1.topScorer (player, team) (cellText false "goals" row),
        topAssists := condSet2 acc.1.topAssists (player, team) (cellText false "assists" row) },
     { acc.2 with players := acc.2.players + 1 })

/-- One `tbody tr` of a team-schema table in variant 1 (lines 190-223):
the team name comes from a `th` cell; the six numeric fields are six
independent guarded `Set` blocks on six distinct families; the row is
counted once the identity check passed. -/
def v1teamRow (acc : GaugeState × Counts) (row : List Cell) : GaugeState × Counts :=
  let team := cellText true "team" row
  if team == "" then acc
  else
    ({ acc.1 with
        teamPoints := condSet1 acc.1.teamPoints team (cellText false "points" row),
        teamGoalsFor := condSet1 acc.1.teamGoalsFor team (cellText false "goals_for" row),
        teamGoalsAgainst := condSet1 acc.1.teamGoalsAgainst team
          (cellText false "goals_against" row),
        teamWins := condSet1 acc.1.teamWins team (cellText false "wins" row),
        teamDraws := condSet1 acc.1.teamDraws team (cellText false "draws" row),
        teamLosses := condSet1 acc.1.teamLosses team (cellText false "losses" row) },
     { acc.2 with teams := acc.2.teams + 1 })

/-- One `tbody tr` of a goalkeeper-schema table in variant 1 (lines
228-239): the row is dropped when an identity field or the clean-sheets
cell is blank, and the gauge set and the count increment both happen
only when the clean-sheets text parses. -/
def v1gkRow (acc : GaugeState × Counts) (row : List Cell) : GaugeState × Counts :=
  let player := cellText false "player" row
  let team := cellText false "team" row
  let cs := cellText false "clean_sheets" row
  if player == "" || team == "" || cs == "" then acc
  else
    match parseDec cs with
    | some v =>
        ({ acc.1 with cleanSheets := setFam2 acc.1.cleanSheets (player, team) v },
         { acc.2 with gks := acc.2.gks + 1 })
    | none => acc

/-- Variant 1's player-schema check (line 167): a `th` column identified
as `player` and a `td` column identified as `goals`. -/
def matchesPlayer (t : Table) : Bool :=
  tableHasCell true "player" t && tableHasCell false "goals" t

/-- Variant 1's team-schema check (line 189): a `th` column identified
as `team` and a `td` column identified as `points`. -/
def matchesTeam (t : Table) : Bool :=
  tableHasCell true "team" t && tableHasCell false "points" t

/-- Variant 1's goalkeeper-schema check (line 227): a `th` column
identified as `player` and a `td` column identified as `clean_sheets`. -/
def matchesGk (t : Table) : Bool :=
  tableHasCell true "player" t && tableHasCell false "clean_sheets" t

/-- Variant 1's per-table pass (lines 165-241): the three schema checks
run independently on each table, by column-identifier presence only —
the table's id attribute is never consulted. -/
def v1tableStep (acc : GaugeState × Counts) (t : Table) : GaugeState × Counts :=
  let acc1 := if matchesPlayer t then t.body.foldl v1playerRow acc else acc
  let acc2 := if matchesTeam t then t.body.foldl v1teamRow acc1 else acc1
  if matchesGk t then t.body.foldl v1gkRow acc2 else acc2

/-- Variant 1's whole-document extraction: `doc.Find("table").Each`. -/
def v1extract (d : Doc) (g : GaugeState) : GaugeState × Counts :=
  d.foldl v1tableStep (g, Counts.zero)

/-! ## HTTP fetching -/

/-- Outcome of one `client.Do`/`client.Get`: a network error (in which
case Go returns a nil response), or a response with a status code and a
body; the body is `none` when `goquery.NewDocumentFromReader` on it would
fail and `some` the parsed document otherwise. -/
inductive HttpResult (δ : Type) where
  | netErr : HttpResult δ
  | resp (status : Nat) (body : Option δ) : HttpResult δ
deriving DecidableEq, Repr

/-- The `resp` pointer after one attempt: `none` is Go's nil response. -/
def respOf {δ : Type} : HttpResult δ → Option (Nat × Option δ)
  | .netErr => none
  | .resp s b => some (s, b)

/-- The loop break condition `err == nil && resp.StatusCode == 200`. -/
def respOk {δ : Type} : Option (Nat × Option δ) → Bool
  | some (s, _) => s == 200
  | none => false

/-- Observable trace of a fetch: the final result, the list of backoff
sleeps performed (in seconds, in order) and the number of HTTP attempts
made. -/
structure FetchTrace (δ : Type) where
  result : Option δ
  sleeps : List Nat
  attemptsMade : Nat
deriving DecidableEq, Repr

/-- Variant 1's retry loop (lines 125-135): up to `left` more attempts
starting at number `attempt`; on a network error or non-200 status it
sleeps `attempt*2` seconds and retries; the response and error of the
last attempt survive the loop. -/
def v1fetchAux (f : Nat → HttpResult Doc) :
    Nat → Nat → Option (Nat × Option Doc) → FetchTrace (Nat × Option Doc)
  | _, 0, last => ⟨last, [], 0⟩
  | attempt, left + 1, _ =>
      let cur := respOf (f attempt)
      if respOk cur then ⟨cur, [], 1⟩
      else
        let rest := v1fetchAux f (attempt + 1) left cur
        ⟨rest.result, attempt * 2 :: rest.sleeps, rest.attemptsMade + 1⟩

/-- Variant 1's fetch loop entered at attempt 1 with 3 attempts. -/
def v1fetch (f : Nat → HttpResult Doc) : FetchTrace (Nat × Option Doc) :=
  v1fetchAux f 1 3 none

/-- Result of one whole scrape cycle: either the process panicked (a
runtime fault that kills the exporter, since nothing recovers), or the
gauge state and row-count diagnostics after the cycle. -/
inductive CrashOr (α : Type) where
  | crash : CrashOr α
  | ok (a : α) : CrashOr α
deriving DecidableEq, Repr

/-- Variant 1's `scrapeFBref` (lines 114-245).  `dur` is the elapsed
time the deferred `scrapeDuration.Set` records.  After the retry loop,
`err != nil` means the last attempt was a network error and `resp` is
nil; the error branch's log statement (line 138) then reads
`resp.StatusCode` from the nil pointer, which panics — modelled as
`crash`.  A non-200 final response or a document-parse failure sets the
success gauge to 0 and returns with the stats gauges untouched; on
success the stats gauges are reset and repopulated and success is 1. -/
def v1scrape (dur : ℚ) (f : Nat → HttpResult Doc) (g : GaugeState) :
    CrashOr (GaugeState × Counts) :=
  match (v1fetch f).result with
  | none => .crash
  | some (status, body) =>
      if status == 200 then
        match body with
        | none => .ok ({ g with scrapeSuccess := 0, scrapeDuration := dur }, Counts.zero)
        | some tables =>
            let ec := v1extract tables (resetStats g)
            .ok ({ ec.1 with scrapeSuccess := 1, scrapeDuration := dur }, ec.2)
      else
        .ok ({ g with scrapeSuccess := 0, scrapeDuration := dur }, Counts.zero)

/-! ## Variant 2 (lines 277-520): fixed table-ID lookups -/

/-- Variant 2's extraction (lines 426-495): three passes, each selecting
rows via `doc.Find("table#<fixed id> tbody tr")`, so only tables whose
id attribute equals the hard-coded string contribute rows; the per-row
logic is identical to variant 1's. -/
def v2extract (d : Doc) (g : GaugeState) : GaugeState × Counts :=
  let acc1 := (docRows (d.filter (fun t => t.id == "stats_standard_9"))).foldl
    v1playerRow (g, Counts.zero)
  let acc2 := (docRows (d.filter (fun t => t.id == "results2024-202591_overall"))).foldl
    v1teamRow acc1
  (docRows (d.filter (fun t => t.id == "stats_keeper_9"))).foldl v1gkRow acc2

/-! ## Variant 3 (lines 521-737): comment recovery, per-document schemas -/

/-- One `<!-- ... -->` block of the raw page as `extractCommentTables`
sees it: its content either lacks a `<table` marker, or has one but
fails to parse, or parses into a fragment document with its tables. -/
inductive CommentBlock where
  | noTableMarker : CommentBlock
  | malformed : CommentBlock
  | frag (tables : Doc) : CommentBlock
deriving DecidableEq, Repr

/-- A raw fetched page for variant 3: the visible document's tables plus
the comment blocks appearing in the serialized HTML, in order. -/
structure HtmlInput where
  visible : Doc
  comments : List CommentBlock
deriving DecidableEq, Repr

/-- `extractCommentTables` (lines 606-619): keep each comment whose
content contains `<table` and parses; a malformed fragment or a comment
without the marker is skipped silently. -/
def extractCommentTables (cs : List CommentBlock) : List Doc :=
  cs.filterMap (fun cb => match cb with
    | .frag ts => some ts
    | _ => none)

/-- `fetchHTML` (lines 576-602): up to `left` more attempts starting at
number `attempt`; a network error, a non-200 status, or a body that
fails to parse each sleep `attempt*2` seconds and retry; a parsed
document returns immediately; exhaustion yields an error (`none`). -/
def fetchHTMLAux (f : Nat → HttpResult HtmlInput) : Nat → Nat → FetchTrace HtmlInput
  | _, 0 => ⟨none, [], 0⟩
  | attempt, left + 1 =>
      match f attempt with
      | .netErr =>
          let rest := fetchHTMLAux f (attempt + 1) left
          ⟨rest.result, attempt * 2 :: rest.sleeps, rest.attemptsMade + 1⟩
      | .resp status body =>
          if status == 200 then
            match body with
            | some d => ⟨some d, [], 1⟩
            | none =>
                let rest := fetchHTMLAux f (attempt + 1) left
                ⟨rest.result, attempt * 2 :: rest.sleeps, rest.attemptsMade + 1⟩
          else
            let rest := fetchHTMLAux f (attempt + 1) left
            ⟨rest.result, attempt * 2 :: rest.sleeps, rest.attemptsMade + 1⟩

/-- `fetchHTML` entered at attempt 1 with 3 attempts. -/
def fetchHTML (f : Nat → HttpResult HtmlInput) : FetchTrace HtmlInput :=
  fetchHTMLAux f 1 3

/-- One `tbody tr` under variant 3's player pass (lines 653-663): parse
errors are discarded (`goals, _ := strconv.ParseFloat(...)`), so an
unparsable cell contributes the Go zero value 0, and both gauges are set
unconditionally once the identity check passed. -/
def v3playerRow (acc : GaugeState × Counts) (row : List Cell) : GaugeState × Counts :=
  let player := cellText false "player" row
  let team := cellText false "team" row
  let goals := (parseDec (cellText false "goals" row)).getD 0
  let assists := (parseDec (cellText false "assists" row)).getD 0
  if !(player == "") && !(team == "") then
    ({ acc.1 with
        topScorer := setFam2 acc.1.topScorer (player, team) goals,
        topAssists := setFam2 acc.1.topAssists (player, team) assists },
     { acc.2 with players := acc.2.players + 1 })
  else acc

/-- One `tbody tr` under variant 3's goalkeeper pass (lines 668-676):
an unparsable or absent clean-sheets cell is published as 0, and the
count increments for every identity-valid row. -/
def v3gkRow (acc : GaugeState × Counts) (row : List Cell) : GaugeState × Counts :=
  let player := cellText false "player" row
  let team := cellText false "team" row
  let cs := (parseDec (cellText false "clean_sheets" row)).getD 0
  if !(player == "") && !(team == "") then
    ({ acc.1 with cleanSheets := setFam2 acc.1.cleanSheets (player, team) cs },
     { acc.2 with gks := acc.2.gks + 1 })
  else acc

/-- One `tbody tr` under variant 3's team pass (lines 681-700): all six
numeric fields are set unconditionally, with 0 on parse failure. -/
def v3teamRow (acc : GaugeState × Counts) (row : List Cell) : GaugeState × Counts :=
  let team := cellText true "team" row
  if team == "" then acc
  else
    ({ acc.1 with
        teamPoints := setFam1 acc.1.teamPoints team
          ((parseDec (cellText false "points" row)).getD 0),
        teamGoalsFor := setFam1 acc.1.teamGoalsFor team
          ((parseDec (cellText false "goals_for" row)).getD 0),
        teamGoalsAgainst := setFam1 acc.1.teamGoalsAgainst team
          ((parseDec (cellText false "goals_against" row)).getD 0),
        teamWins := setFam1 acc.1.teamWins team
          ((parseDec (cellText false "wins" row)).getD 0),
        teamDraws := setFam1 acc.1.teamDraws team
          ((parseDec (cellText false "draws" row)).getD 0),
        teamLosses := setFam1 acc.1.teamLosses team
          ((parseDec (cellText false "losses" row)).getD 0) },
     { acc.2 with teams := acc.2.teams + 1 })

/-- Variant 3's player-schema check (line 652), taken over the whole
candidate document rather than per table. -/
def docMatchesPlayer (d : Doc) : Bool :=
  docHasCell true "player" d && docHasCell false "goals" d

/-- Variant 3's goalkeeper-schema check (line 667), per document. -/
def docMatchesGk (d : Doc) : Bool :=
  docHasCell true "player" d && docHasCell false "clean_sheets" d

/-- Variant 3's team-schema check (line 680), per document. -/
def docMatchesTeam (d : Doc) : Bool :=
  docHasCell true "team" d && docHasCell false "points" d

/-- Variant 3's per-candidate-document pass (lines 650-702): each schema
check inspects the whole candidate document, and a matching schema walks
every `tbody tr` of that document. -/
def v3docStep (acc : GaugeState × Counts) (d : Doc) : GaugeState × Counts :=
  let acc1 := if docMatchesPlayer d then (docRows d).foldl v3playerRow acc else acc
  let acc2 := if docMatchesGk d then (docRows d).foldl v3gkRow acc1 else acc1
  if docMatchesTeam d then (docRows d).foldl v3teamRow acc2 else acc2

/-- `allDocs` (line 646): the visible document first, then the
comment-recovered fragment documents in comment order. -/
def v3allDocs (inp : HtmlInput) : List Doc :=
  inp.visible :: extractCommentTables inp.comments

/-- Extraction over all candidate documents of a page. -/
def v3extractDocs (ds : List Doc) (acc : GaugeState × Counts) : GaugeState × Counts :=
  ds.foldl v3docStep acc

/-- Variant 3's `scrapeFBref` (lines 621-706).  The begin-cycle reset
(lines 628-636) runs before the fetch, so a fetch failure leaves the
stats gauges already cleared; a successful fetch extracts over the
visible document and the comment fragments and sets success to 1. -/
def v3scrape (dur : ℚ) (f : Nat → HttpResult HtmlInput) (g : GaugeState) :
    GaugeState × Counts :=
  let g1 := resetStats g
  match (fetchHTML f).result with
  | none => ({ g1 with scrapeSuccess := 0, scrapeDuration := dur }, Counts.zero)
  | some inp =>
      let ec := v3extractDocs (v3allDocs inp) (g1, Counts.zero)
      ({ ec.1 with scrapeSuccess := 1, scrapeDuration := dur }, ec.2)

/-! ## Predicates used to state the claims -/

/-- No label component of a two-label family is the empty string. -/
def fam2NoBlank (m : Fam2) : Bool :=
  m.all (fun p => !(p.1.1 == "") && !(p.1.2 == ""))

/-- No label of a one-label family is the empty string. -/
def fam1NoBlank (m : Fam1) : Bool :=
  m.all (fun p => !(p.1 == ""))

/-- No labeled value in any of the nine stats families carries a blank
label component. -/
def blankFree (g : GaugeState) : Bool :=
  fam2NoBlank g.topScorer && fam2NoBlank g.topAssists && fam2NoBlank g.cleanSheets &&
  fam1NoBlank g.teamPoints && fam1NoBlank g.teamGoalsFor && fam1NoBlank g.teamGoalsAgainst &&
  fam1NoBlank g.teamWins && fam1NoBlank g.teamDraws && fam1NoBlank g.teamLosses

/-- A row whose player and team identity cells are non-empty after
trimming. -/
def idValid2 (row : List Cell) : Bool :=
  !(cellText false "player" row == "") && !(cellText false "team" row == "")

/-- The value a cycle leaves for a field that is set when its text
parses and left alone otherwise. -/
def parsedOrOld (txt : String) (old : Option ℚ) : Option ℚ :=
  match parseDec txt with
  | some v => some v
  | none => old

/-- Replace a table's id attribute, leaving its column signature and
rows untouched. -/
def reId (s : String) (t : Table) : Table :=
  ⟨s, t.headRow, t.body⟩

/-- Whether an attempt outcome makes variant 1's retry loop retry:
a network error or a non-200 status. -/
def v1fails : HttpResult Doc → Bool
  | .netErr => true
  | .resp s _ => !(s == 200)

/-- Whether an attempt outcome makes `fetchHTML` retry: a network
error, a non-200 status, or a body that fails to parse. -/
def v3fails : HttpResult HtmlInput → Bool
  | .netErr => true
  | .resp s b => !(s == 200) || b.isNone

/-- The document an attempt outcome would deliver, if any. -/
def docOf {δ : Type} : HttpResult δ → Option δ
  | .netErr => none
  | .resp _ b => b

/-! ## Concrete fixtures for witnesses and counterexamples -/

/-- A `td` cell. -/
def cTd (st tx : String) : Cell := ⟨false, st, tx⟩

/-- A `th` cell. -/
def cTh (st tx : String) : Cell := ⟨true, st, tx⟩

/-- A one-row player-schema table (the spec's own scenario row). -/
def playerT1 : Table :=
  ⟨"stats_standard_9",
   [cTh "player" "Player", cTh "team" "Squad", cTh "goals" "Gls", cTh "assists" "Ast"],
   [[cTd "player" "Erling Haaland", cTd "team" "Manchester City",
     cTd "goals" "27", cTd "assists" "5"]]⟩

/-- A one-row goalkeeper-schema table. -/
def gkT1 : Table :=
  ⟨"stats_keeper_9",
   [cTh "player" "Player", cTh "team" "Squad", cTh "clean_sheets" "CS"],
   [[cTd "player" "Alisson", cTd "team" "Liverpool", cTd "clean_sheets" "13"]]⟩

/-- A goalkeeper-schema table whose only row has an empty clean-sheets
cell but valid identity fields. -/
def gkEmptyCsT : Table :=
  ⟨"stats_keeper_9",
   [cTh "player" "Player", cTh "team" "Squad", cTh "clean_sheets" "CS"],
   [[cTd "player" "Alisson", cTd "team" "Liverpool", cTd "clean_sheets" ""]]⟩

/-- A goalkeeper-schema table with two identity-valid rows, one with a
parsable clean-sheets cell and one with a non-numeric one. -/
def gkMixedT : Table :=
  ⟨"stats_keeper_9",
   [cTh "player" "Player", cTh "team" "Squad", cTh "clean_sheets" "CS"],
   [[cTd "player" "Alisson", cTd "team" "Liverpool", cTd "clean_sheets" "13"],
    [cTd "player" "Ederson", cTd "team" "Manchester City", cTd "clean_sheets" "x"]]⟩

/-- A team-standings body row with a non-numeric `points` cell (the
spec's own scenario row, with `points` as the failing field). -/
def teamRowLiv : List Cell :=
  [cTh "team" "Liverpool", cTd "points" "x", cTd "goals_for" "26", cTd "goals_against" "24",
   cTd "wins" "9", cTd "draws" "1", cTd "losses" "2"]

/-- A one-row team-schema table containing `teamRowLiv`. -/
def teamBadPointsT : Table :=
  ⟨"results2024-202591_overall",
   [cTh "team" "Squad", cTh "points" "Pts", cTh "goals_for" "GF", cTh "goals_against" "GA",
    cTh "wins" "W", cTh "draws" "D", cTh "losses" "L"],
   [teamRowLiv]⟩

/-- A table matching none of the three schemas. -/
def unrelatedT : Table :=
  ⟨"misc", [cTh "foo" "Foo"], [[cTd "bar" "1"]]⟩

/-- A gauge state left by an earlier successful cycle: one published
top-scorer value and the success gauge at 1. -/
def prevCycleState : GaugeState :=
  { initState with
      topScorer := [(("Erling Haaland", "Manchester City"), 27)],
      topAssists := [(("Erling Haaland", "Manchester City"), 5)],
      scrapeSuccess := 1 }

/-- The gauge state after a variant-1 cycle over just `playerT1`. -/
def afterPlayerCycle : GaugeState :=
  { topScorer := [(("Erling Haaland", "Manchester City"), 27)],
    topAssists := [(("Erling Haaland", "Manchester City"), 5)],
    cleanSheets := [], teamPoints := [], teamGoalsFor := [], teamGoalsAgainst := [],
    teamWins := [], teamDraws := [], teamLosses := [],
    scrapeSuccess := 1, scrapeDuration := 0 }

/-! ## Helper lemmas -/

/-- Setting a two-label family at a key makes that key's value the one set. -/
theorem getFam2_setFam2_self (m : Fam2) (k : String × String) (v : ℚ) :
    getFam2 (setFam2 m k v) k = some v := by
  simp [getFam2, setFam2, List.find?]

/-- Setting a one-label family at a key makes that key's value the one set. -/
theorem getFam1_setFam1_self (m : Fam1) (k : String) (v : ℚ) :
    getFam1 (setFam1 m k v) k = some v := by
  simp [getFam1, setFam1, List.find?]

/-- A guarded set on a two-label family leaves the key's value at the
parsed number when the text parses and untouched otherwise. -/
theorem getFam2_condSet2 (fam : Fam2) (k : String × String) (txt : String) :
    getFam2 (condSet2 fam k txt) k = parsedOrOld txt (getFam2 fam k) := by
  cases h : parseDec txt <;>
    simp [condSet2, parsedOrOld, h, getFam2_setFam2_self]

/-- A guarded set on a one-label family leaves the key's value at the
parsed number when the text parses and untouched otherwise. -/
theorem getFam1_condSet1 (fam : Fam1) (k : String) (txt : String) :
    getFam1 (condSet1 fam k txt) k = parsedOrOld txt (getFam1 fam k) := by
  cases h : parseDec txt <;>
    simp [condSet1, parsedOrOld, h, getFam1_setFam1_self]

/-- The empty string never parses as a number. -/
theorem parseDec_empty : parseDec "" = none := rfl

/-- Folding a step that fixes every list element is the identity. -/
theorem foldl_id_of_mem {α β : Type} (l : List β) (f : α → β → α) (a : α)
    (h : ∀ b ∈ l, ∀ x, f x b = x) : l.foldl f a = a := by
  induction l generalizing a with
  | nil => rfl
  | cons hd tl ih =>
      rw [List.foldl_cons, h hd (List.mem_cons_self hd tl)]
      exact ih a fun b hb x => h b (List.mem_cons_of_mem hd hb) x

/-- A table matching none of the three schemas contributes nothing. -/
theorem v1tableStep_no_match (acc : GaugeState × Counts) (t : Table)
    (hp : matchesPlayer t = false) (ht : matchesTeam t = false)
    (hg : matchesGk t = false) :
    v1tableStep acc t = acc := by
  simp [v1tableStep, hp, ht, hg]

/-! ## C8: the begin-cycle reset -/

/-- C8: the begin-cycle reset clears every labeled value in all nine
stats gauge families and changes nothing else — the two health gauges
`fbref_scrape_success` and `fbref_scrape_duration_seconds` keep their
previous values across the reset.  `resetStats` is the reset block every
cycle variant runs. -/
theorem claim_C8_reset_clears_stats_families_only (g : GaugeState) :
    (resetStats g).topScorer = [] ∧ (resetStats g).topAssists = [] ∧
    (resetStats g).cleanSheets = [] ∧ (resetStats g).teamPoints = [] ∧
    (resetStats g).teamGoalsFor = [] ∧ (resetStats g).teamGoalsAgainst = [] ∧
    (resetStats g).teamWins = [] ∧ (resetStats g).teamDraws = [] ∧
    (resetStats g).teamLosses = [] ∧
    (resetStats g).scrapeSuccess = g.scrapeSuccess ∧
    (resetStats g).scrapeDuration = g.scrapeDuration :=
  ⟨rfl, rfl, rfl, rfl, rfl, rfl, rfl, rfl, rfl, rfl, rfl⟩

/-! ## C1: fetch failure and the previous snapshot -/

/-- C1 counterexample evaluation: variant 3's `scrapeFBref` (lines
621-706) runs the begin-cycle reset before the fetch, so a cycle whose
three fetch attempts all fail with a network error leaves the top-scorer
family empty — the value published by the last successful cycle is gone,
contradicting the claim that every labeled value stays exactly as it was
— while `fbref_scrape_success` is set to 0 as the claim says. -/
theorem claim_C1_failed_fetch_clears_stats :
    (v3scrape 0 (fun _ => HttpResult.netErr) prevCycleState).1.topScorer = [] ∧
    prevCycleState.topScorer = [(("Erling Haaland", "Manchester City"), 27)] ∧
    (v3scrape 0 (fun _ => HttpResult.netErr) prevCycleState).1.scrapeSuccess = 0 := by
  decide

/-! ## C2: the exhausted-retries failure path -/

/-- C2 counterexample evaluation: in variant 1's `scrapeFBref`, when all
three attempts fail with a network error the response pointer is nil,
and the error branch's log statement (line 138) reads `resp.StatusCode`
from it — a nil-pointer dereference that panics and kills the process,
so the cycle does not run to completion. -/
theorem claim_C2_nil_response_dereference :
    v1scrape 0 (fun _ => HttpResult.netErr) initState = CrashOr.crash := rfl

/-! ## C9: inputs with no matching tables -/

/-- C9: for a successfully fetched and parsed document none of whose
tables matches any of the three schemas, extraction produces nothing
(every stats family ends the cycle empty), all three diagnostic counts
are zero, and the cycle still ends with the success gauge set to 1. -/
theorem claim_C9_no_matching_tables (dur : ℚ) (g : GaugeState) (tables : Doc)
    (h : tables.all (fun t => !matchesPlayer t && !matchesTeam t && !matchesGk t) = true) :
    v1scrape dur (fun _ => HttpResult.resp 200 (some tables)) g =
      CrashOr.ok ({ resetStats g with scrapeSuccess := 1, scrapeDuration := dur },
        Counts.zero) := by
  have hext : v1extract tables (resetStats g) = (resetStats g, Counts.zero) := by
    refine foldl_id_of_mem tables v1tableStep (resetStats g, Counts.zero) ?_
    intro t ht acc
    have hb := List.all_eq_true.mp h t ht
    simp only [Bool.and_eq_true, Bool.not_eq_true'] at hb
    exact v1tableStep_no_match acc t hb.1.1 hb.1.2 hb.2
  show CrashOr.ok _ = _
  rw [show v1extract tables (resetStats g) = (resetStats g, Counts.zero) from hext]

/-- Witness for C9 at a concrete unmatched table. -/
theorem claim_C9_witness :
    v1scrape 1 (fun _ => HttpResult.resp 200 (some [unrelatedT])) initState =
      CrashOr.ok ({ resetStats initState with scrapeSuccess := 1, scrapeDuration := 1 },
        Counts.zero) :=
  claim_C9_no_matching_tables 1 initState [unrelatedT] (by decide)

/-! ## C10: per-schema row-count rules -/

/-- C10: the player count increments for every identity-valid player row
regardless of whether goals or assists parse, while the goalkeeper count
increments only when the clean-sheets text also parses as a decimal
number; consequently, on a concrete table with one parsable and one
non-numeric clean-sheets cell, the logged goalkeeper count is strictly
less than the number of identity-valid goalkeeper rows. -/
theorem claim_C10_count_rules :
    (∀ (acc : GaugeState × Counts) (row : List Cell),
      (v1playerRow acc row).2.players =
        acc.2.players + (if idValid2 row then 1 else 0)) ∧
    (∀ (acc : GaugeState × Counts) (row : List Cell),
      (v1gkRow acc row).2.gks =
        acc.2.gks + (if idValid2 row &&
          (parseDec (cellText false "clean_sheets" row)).isSome then 1 else 0)) ∧
    (v1extract [gkMixedT] initState).2.gks < gkMixedT.body.countP idValid2 := by
  refine ⟨?_, ?_, by decide⟩
  · intro acc row
    cases hcond : ((cellText false "player" row == "") || (cellText false "team" row == "")) with
    | true =>
        have hid : idValid2 row = false := by
          rcases Bool.or_eq_true_iff.mp hcond with h1 | h1 <;> simp [idValid2, h1]
        simp [v1playerRow, hcond, hid]
    | false =>
        have h1 := (Bool.or_eq_false_iff.mp hcond).1
        have h2 := (Bool.or_eq_false_iff.mp hcond).2
        have hid : idValid2 row = true := by simp [idValid2, h1, h2]
        simp [v1playerRow, hcond, hid]
  · intro acc row
    cases hcond : ((cellText false "player" row == "") || (cellText false "team" row == "") ||
        (cellText false "clean_sheets" row == "")) with
    | true =>
        rcases Bool.or_eq_true_iff.mp hcond with h1 | h1
        · rcases Bool.or_eq_true_iff.mp h1 with h2 | h2
          · have hid : idValid2 row = false := by simp [idValid2, h2]
            simp [v1gkRow, hcond, hid]
          · have hid : idValid2 row = false := by simp [idValid2, h2]
            simp [v1gkRow, hcond, hid]
        · have hcs : cellText false "clean_sheets" row = "" := by
            simpa using h1
          simp [v1gkRow, hcond, hcs, parseDec_empty]
    | false =>
        have h1 := (Bool.or_eq_false_iff.mp hcond).1
        have hcs := (Bool.or_eq_false_iff.mp hcond).2
        have hid : idValid2 row = true := by
          simp [idValid2, (Bool.or_eq_false_iff.mp h1).1, (Bool.or_eq_false_iff.mp h1).2]
        cases hp : parseDec (cellText false "clean_sheets" row) with
        | some v => simp [v1gkRow, hcond, hid, hp]
        | none => simp [v1gkRow, hcond, hid, hp]

/-! ## C4: no blank labels -/

/-- Setting a two-label family at a key with non-blank components keeps
the family free of blank labels. -/
theorem fam2NoBlank_setFam2 (m : Fam2) (k : String × String) (v : ℚ)
    (hm : fam2NoBlank m = true) (h1 : (k.1 == "") = false) (h2 : (k.2 == "") = false) :
    fam2NoBlank (setFam2 m k v) = true := by
  simp only [fam2NoBlank, setFam2, List.all_cons, h1, h2, Bool.not_false, Bool.and_self,
    Bool.true_and]
  rw [List.all_eq_true]
  intro p hp
  exact List.all_eq_true.mp hm p (List.mem_of_mem_filter hp)

/-- Setting a one-label family at a non-blank key keeps it blank-free. -/
theorem fam1NoBlank_setFam1 (m : Fam1) (k : String) (v : ℚ)
    (hm : fam1NoBlank m = true) (h1 : (k == "") = false) :
    fam1NoBlank (setFam1 m k v) = true := by
  simp only [fam1NoBlank, setFam1, List.all_cons, h1, Bool.not_false, Bool.true_and]
  rw [List.all_eq_true]
  intro p hp
  exact List.all_eq_true.mp hm p (List.mem_of_mem_filter hp)

/-- A guarded set at a non-blank key keeps a two-label family blank-free. -/
theorem fam2NoBlank_condSet2 (m : Fam2) (k : String × String) (txt : String)
    (hm : fam2NoBlank m = true) (h1 : (k.1 == "") = false) (h2 : (k.2 == "") = false) :
    fam2NoBlank (condSet2 m k txt) = true := by
  cases h : parseDec txt with
  | some v => simpa [condSet2, h] using fam2NoBlank_setFam2 m k v hm h1 h2
  | none => simpa [condSet2, h] using hm

/-- A guarded set at a non-blank key keeps a one-label family blank-free. -/
theorem fam1NoBlank_condSet1 (m : Fam1) (k : String) (txt : String)
    (hm : fam1NoBlank m = true) (h1 : (k == "") = false) :
    fam1NoBlank (condSet1 m k txt) = true := by
  cases h : parseDec txt with
  | some v => simpa [condSet1, h] using fam1NoBlank_setFam1 m k v hm h1
  | none => simpa [condSet1, h] using hm

/-- Variant 1's player row step preserves blank-freedom. -/
theorem blankFree_v1playerRow (acc : GaugeState × Counts) (row : List Cell)
    (h : blankFree acc.1 = true) : blankFree (v1playerRow acc row).1 = true := by
  cases hcond : ((cellText false "player" row == "") || (cellText false "team" row == "")) with
  | true => simpa [v1playerRow, hcond] using h
  | false =>
      have h1 := (Bool.or_eq_false_iff.mp hcond).1
      have h2 := (Bool.or_eq_false_iff.mp hcond).2
      simp only [blankFree, Bool.and_eq_true] at h
      simp only [v1playerRow, hcond, Bool.false_eq_true, if_false, blankFree, Bool.and_eq_true]
      exact ⟨⟨⟨⟨⟨⟨⟨⟨fam2NoBlank_condSet2 _ _ _ h.1.1.1.1.1.1.1.1 h1 h2,
        fam2NoBlank_condSet2 _ _ _ h.1.1.1.1.1.1.1.2 h1 h2⟩, h.1.1.1.1.1.1.2⟩,
        h.1.1.1.1.1.2⟩, h.1.1.1.1.2⟩, h.1.1.1.2⟩, h.1.1.2⟩, h.1.2⟩, h.2⟩

/-- Variant 1's team row step preserves blank-freedom. -/
theorem blankFree_v1teamRow (acc : GaugeState × Counts) (row : List Cell)
    (h : blankFree acc.1 = true) : blankFree (v1teamRow acc row).1 = true := by
  cases hcond : (cellText true "team" row == "") with
  | true => simpa [v1teamRow, hcond] using h
  | false =>
      simp only [blankFree, Bool.and_eq_true] at h
      simp only [v1teamRow, hcond, Bool.false_eq_true, if_false, blankFree, Bool.and_eq_true]
      exact ⟨⟨⟨⟨⟨⟨⟨⟨h.1.1.1.1.1.1.1.1, h.1.1.1.1.1.1.1.2⟩, h.1.1.1.1.1.1.2⟩,
        fam1NoBlank_condSet1 _ _ _ h.1.1.1.1.1.2 hcond⟩,
        fam1NoBlank_condSet1 _ _ _ h.1.1.1.1.2 hcond⟩,
        fam1NoBlank_condSet1 _ _ _ h.1.1.1.2 hcond⟩,
        fam1NoBlank_condSet1 _ _ _ h.1.1.2 hcond⟩,
        fam1NoBlank_condSet1 _ _ _ h.1.2 hcond⟩,
        fam1NoBlank_condSet1 _ _ _ h.2 hcond⟩

/-- Variant 1's goalkeeper row step preserves blank-freedom. -/
theorem blankFree_v1gkRow (acc : GaugeState × Counts) (row : List Cell)
    (h : blankFree acc.1 = true) : blankFree (v1gkRow acc row).1 = true := by
  cases hcond : ((cellText false "player" row == "") || (cellText false "team" row == "") ||
      (cellText false "clean_sheets" row == "")) with
  | true => simpa [v1gkRow, hcond] using h
  | false =>
      have hor := (Bool.or_eq_false_iff.mp hcond).1
      have h1 := (Bool.or_eq_false_iff.mp hor).1
      have h2 := (Bool.or_eq_false_iff.mp hor).2
      cases hp : parseDec (cellText false "clean_sheets" row) with
      | none => simpa [v1gkRow, hcond, hp] using h
      | some v =>
          simp only [blankFree, Bool.and_eq_true] at h
          simp only [v1gkRow, hcond, Bool.false_eq_true, if_false, hp, blankFree,
            Bool.and_eq_true]
          exact ⟨⟨⟨⟨⟨⟨⟨⟨h.1.1.1.1.1.1.1.1, h.1.1.1.1.1.1.1.2⟩,
            fam2NoBlank_setFam2 _ _ _ h.1.1.1.1.1.1.2 h1 h2⟩,
            h.1.1.1.1.1.2⟩, h.1.1.1.1.2⟩, h.1.1.1.2⟩, h.1.1.2⟩, h.1.2⟩, h.2⟩

/-- Variant 3's player row step preserves blank-freedom. -/
theorem blankFree_v3playerRow (acc : GaugeState × Counts) (row : List Cell)
    (h : blankFree acc.1 = true) : blankFree (v3playerRow acc row).1 = true := by
  cases hcond : (!(cellText false "player" row == "") && !(cellText false "team" row == "")) with
  | false => simpa [v3playerRow, hcond] using h
  | true =>
      have h1 : (cellText false "player" row == "") = false := by
        have := (Bool.and_eq_true_iff.mp hcond).1
        simpa using this
      have h2 : (cellText false "team" row == "") = false := by
        have := (Bool.and_eq_true_iff.mp hcond).2
        simpa using this
      simp only [blankFree, Bool.and_eq_true] at h
      simp only [v3playerRow, hcond, if_true, blankFree, Bool.and_eq_true]
      exact ⟨⟨⟨⟨⟨⟨⟨⟨fam2NoBlank_setFam2 _ _ _ h.1.1.1.1.1.1.1.1 h1 h2,
        fam2NoBlank_setFam2 _ _ _ h.1.1.1.1.1.1.1.2 h1 h2⟩, h.1.1.1.1.1.1.2⟩,
        h.1.1.1.1.1.2⟩, h.1.1.1.1.2⟩, h.1.1.1.2⟩, h.1.1.2⟩, h.1.2⟩, h.2⟩

/-- Variant 3's goalkeeper row step preserves blank-freedom. -/
theorem blankFree_v3gkRow (acc : GaugeState × Counts) (row : List Cell)
    (h : blankFree acc.1 = true) : blankFree (v3gkRow acc row).1 = true := by
  cases hcond : (!(cellText false "player" row == "") && !(cellText false "team" row == "")) with
  | false => simpa [v3gkRow, hcond] using h
  | true =>
      have h1 : (cellText false "player" row == "") = false := by
        have := (Bool.and_eq_true_iff.mp hcond).1
        simpa using this
      have h2 : (cellText false "team" row == "") = false := by
        have := (Bool.and_eq_true_iff.mp hcond).2
        simpa using this
      simp only [blankFree, Bool.and_eq_true] at h
      simp only [v3gkRow, hcond, if_true, blankFree, Bool.and_eq_true]
      exact ⟨⟨⟨⟨⟨⟨⟨⟨h.1.1.1.1.1.1.1.1, h.1.1.1.1.1.1.1.2⟩,
        fam2NoBlank_setFam2 _ _ _ h.1.1.1.1.1.1.2 h1 h2⟩,
        h.1.1.1.1.1.2⟩, h.1.1.1.1.2⟩, h.1.1.1.2⟩, h.1.1.2⟩, h.1.2⟩, h.2⟩

/-- Variant 3's team row step preserves blank-freedom. -/
theorem blankFree_v3teamRow (acc : GaugeState × Counts) (row : List Cell)
    (h : blankFree acc.1 = true) : blankFree (v3teamRow acc row).1 = true := by
  cases hcond : (cellText true "team" row == "") with
  | true => simpa [v3teamRow, hcond] using h
  | false =>
      simp only [blankFree, Bool.and_eq_true] at h
      simp only [v3teamRow, hcond, Bool.false_eq_true, if_false, blankFree, Bool.and_eq_true]
      exact ⟨⟨⟨⟨⟨⟨⟨⟨h.1.1.1.1.1.1.1.1, h.1.1.1.1.1.1.1.2⟩, h.1.1.1.1.1.1.2⟩,
        fam1NoBlank_setFam1 _ _ _ h.1.1.1.1.1.2 hcond⟩,
        fam1NoBlank_setFam1 _ _ _ h.1.1.1.1.2 hcond⟩,
        fam1NoBlank_setFam1 _ _ _ h.1.1.1.2 hcond⟩,
        fam1NoBlank_setFam1 _ _ _ h.1.1.2 hcond⟩,
        fam1NoBlank_setFam1 _ _ _ h.1.2 hcond⟩,
        fam1NoBlank_setFam1 _ _ _ h.2 hcond⟩

/-- Folding a blank-freedom-preserving step preserves blank-freedom. -/
theorem blankFree_foldl {β : Type} (step : GaugeState × Counts → β → GaugeState × Counts)
    (hstep : ∀ acc b, blankFree acc.1 = true → blankFree (step acc b).1 = true)
    (l : List β) (acc : GaugeState × Counts) (h : blankFree acc.1 = true) :
    blankFree ((l.foldl step acc).1) = true := by
  induction l generalizing acc with
  | nil => exact h
  | cons hd tl ih => exact ih (step acc hd) (hstep acc hd h)

/-- A schema-guarded row fold preserves blank-freedom. -/
theorem blankFree_condFoldl {β : Type} (c : Prop) [Decidable c]
    (step : GaugeState × Counts → β → GaugeState × Counts)
    (hstep : ∀ a b, blankFree a.1 = true → blankFree (step a b).1 = true)
    (l : List β) (acc : GaugeState × Counts) (h : blankFree acc.1 = true) :
    blankFree ((if c then l.foldl step acc else acc)).1 = true := by
  split
  · exact blankFree_foldl step hstep l acc h
  · exact h

/-- Variant 1's per-table pass preserves blank-freedom. -/
theorem blankFree_v1tableStep (acc : GaugeState × Counts) (t : Table)
    (h : blankFree acc.1 = true) : blankFree (v1tableStep acc t).1 = true := by
  simp only [v1tableStep]
  exact blankFree_condFoldl _ v1gkRow blankFree_v1gkRow _ _
    (blankFree_condFoldl _ v1teamRow blankFree_v1teamRow _ _
      (blankFree_condFoldl _ v1playerRow blankFree_v1playerRow _ _ h))

/-- Variant 3's per-document pass preserves blank-freedom. -/
theorem blankFree_v3docStep (acc : GaugeState × Counts) (d : Doc)
    (h : blankFree acc.1 = true) : blankFree (v3docStep acc d).1 = true := by
  simp only [v3docStep]
  exact blankFree_condFoldl _ v3teamRow blankFree_v3teamRow _ _
    (blankFree_condFoldl _ v3gkRow blankFree_v3gkRow _ _
      (blankFree_condFoldl _ v3playerRow blankFree_v3playerRow _ _ h))

/-- The reset state is blank-free. -/
theorem blankFree_resetStats (g : GaugeState) : blankFree (resetStats g) = true := rfl

/-- Overwriting only the health gauges does not affect blank-freedom. -/
theorem blankFree_health (g : GaugeState) (s d : ℚ) :
    blankFree { g with scrapeSuccess := s, scrapeDuration := d } = blankFree g := rfl

/-- C4: a body row whose identity field is empty after trimming
produces no record in any schema (the row step is the identity), and
blank-freedom of the published snapshot — no gauge set with a blank
label value — is an invariant of every cycle, for the per-table variant
(crash-free runs) and for the comment-recovery variant. -/
theorem claim_C4_no_blank_labels :
    (∀ (acc : GaugeState × Counts) (row : List Cell),
      cellText false "player" row = "" ∨ cellText false "team" row = "" →
      v1playerRow acc row = acc) ∧
    (∀ (acc : GaugeState × Counts) (row : List Cell),
      cellText true "team" row = "" → v1teamRow acc row = acc) ∧
    (∀ (acc : GaugeState × Counts) (row : List Cell),
      cellText false "player" row = "" ∨ cellText false "team" row = "" →
      v1gkRow acc row = acc) ∧
    (∀ (acc : GaugeState × Counts) (row : List Cell),
      cellText false "player" row = "" ∨ cellText false "team" row = "" →
      v3playerRow acc row = acc) ∧
    (∀ (dur : ℚ) (f : Nat → HttpResult Doc) (g : GaugeState) (r : GaugeState × Counts),
      blankFree g = true → v1scrape dur f g = CrashOr.ok r → blankFree r.1 = true) ∧
    (∀ (dur : ℚ) (f : Nat → HttpResult HtmlInput) (g : GaugeState),
      blankFree g = true → blankFree (v3scrape dur f g).1 = true) := by
  refine ⟨?_, ?_, ?_, ?_, ?_, ?_⟩
  · intro acc row h
    rcases h with h | h <;> simp [v1playerRow, h]
  · intro acc row h
    simp [v1teamRow, h]
  · intro acc row h
    rcases h with h | h <;> simp [v1gkRow, h]
  · intro acc row h
    rcases h with h | h <;> simp [v3playerRow, h]
  · intro dur f g r hg hok
    unfold v1scrape at hok
    rcases hres : (v1fetch f).result with _ | ⟨status, body⟩
    · rw [hres] at hok
      simp at hok
    · rw [hres] at hok
      by_cases hs : (status == 200) = true
      · simp only [hs, if_true] at hok
        cases body with
        | none =>
            cases hok
            rw [blankFree_health]
            exact hg
        | some tables =>
            cases hok
            show blankFree { (v1extract tables (resetStats g)).1 with
              scrapeSuccess := 1, scrapeDuration := dur } = true
            rw [blankFree_health]
            exact blankFree_foldl v1tableStep blankFree_v1tableStep tables
              (resetStats g, Counts.zero) (blankFree_resetStats g)
      · simp only [hs, if_false] at hok
        cases hok
        rw [blankFree_health]
        exact hg
  · intro dur f g hg
    unfold v3scrape
    rcases hres : (fetchHTML f).result with _ | inp
    · show blankFree { resetStats g with scrapeSuccess := 0, scrapeDuration := dur } = true
      rw [blankFree_health]
      exact blankFree_resetStats g
    · show blankFree { (v3extractDocs (v3allDocs inp) (resetStats g, Counts.zero)).1 with
        scrapeSuccess := 1, scrapeDuration := dur } = true
      rw [blankFree_health]
      exact blankFree_foldl v3docStep blankFree_v3docStep (v3allDocs inp)
        (resetStats g, Counts.zero) (blankFree_resetStats g)

/-- Witness for C4: a concrete blank-identity row is dropped, and
blank-freedom holds after concrete variant-1 and variant-3 cycles. -/
theorem claim_C4_witness :
    v1playerRow (initState, Counts.zero)
      [cTd "player" " ", cTd "team" "X", cTd "goals" "3"] = (initState, Counts.zero) ∧
    blankFree afterPlayerCycle = true ∧
    blankFree (v3scrape 0 (fun _ => HttpResult.resp 200 (some ⟨[playerT1], []⟩))
      initState).1 = true := by
  refine ⟨claim_C4_no_blank_labels.1 _ _ (Or.inl (by decide)), ?_,
    claim_C4_no_blank_labels.2.2.2.2.2 0 _ initState (by decide)⟩
  exact claim_C4_no_blank_labels.2.2.2.2.1 0
    (fun _ => HttpResult.resp 200 (some [playerT1])) initState
    (afterPlayerCycle, ⟨1, 0, 0⟩)
    (by decide) (by decide)

/-! ## C3: numeric parse failures -/

/-- C3 counterexample evaluation: the claim fails twice on the code.
In variant 3's team pass, a `points` cell of `x` (a decimal-parse
failure) is published as the value 0 for Liverpool, not omitted; and in
variant 1's goalkeeper pass, a row whose clean-sheets cell is empty is
not produced at all (no record, no gauge, not counted), rather than
being produced with the field absent. -/
theorem claim_C3_counterexample :
    getFam1 ((v3scrape 0 (fun _ => HttpResult.resp 200 (some ⟨[teamBadPointsT], []⟩))
        initState).1.teamPoints) "Liverpool" = some 0 ∧
    (v1extract [gkEmptyCsT] initState).1.cleanSheets = [] ∧
    (v1extract [gkEmptyCsT] initState).2.gks = 0 := by
  exact ⟨by decide, by decide, by decide⟩

/-- C3 amended: in variant 1 (per-table classification), for every
classified row with non-empty identity fields, each numeric field of the
player and team schemas whose text fails decimal parsing is omitted from
the published record (its gauge keeps its previous value, never 0),
every sibling field that parses is published unchanged, and the row is
still produced; in variant 1's goalkeeper schema a row whose
clean-sheets text is empty or unparsable publishes nothing and is not
counted; variant 3 instead publishes an unparsable field as 0. -/
theorem claim_C3_parse_failure_field_omission :
    (∀ (acc : GaugeState × Counts) (row : List Cell),
      cellText false "player" row ≠ "" → cellText false "team" row ≠ "" →
      getFam2 (v1playerRow acc row).1.topScorer
          (cellText false "player" row, cellText false "team" row) =
        parsedOrOld (cellText false "goals" row)
          (getFam2 acc.1.topScorer (cellText false "player" row, cellText false "team" row)) ∧
      getFam2 (v1playerRow acc row).1.topAssists
          (cellText false "player" row, cellText false "team" row) =
        parsedOrOld (cellText false "assists" row)
          (getFam2 acc.1.topAssists (cellText false "player" row, cellText false "team" row)) ∧
      (v1playerRow acc row).2.players = acc.2.players + 1) ∧
    (∀ (acc : GaugeState × Counts) (row : List Cell),
      cellText true "team" row ≠ "" →
      getFam1 (v1teamRow acc row).1.teamPoints (cellText true "team" row) =
        parsedOrOld (cellText false "points" row)
          (getFam1 acc.1.teamPoints (cellText true "team" row)) ∧
      getFam1 (v1teamRow acc row).1.teamGoalsFor (cellText true "team" row) =
        parsedOrOld (cellText false "goals_for" row)
          (getFam1 acc.1.teamGoalsFor (cellText true "team" row)) ∧
      getFam1 (v1teamRow acc row).1.teamGoalsAgainst (cellText true "team" row) =
        parsedOrOld (cellText false "goals_against" row)
          (getFam1 acc.1.teamGoalsAgainst (cellText true "team" row)) ∧
      getFam1 (v1teamRow acc row).1.teamWins (cellText true "team" row) =
        parsedOrOld (cellText false "wins" row)
          (getFam1 acc.1.teamWins (cellText true "team" row)) ∧
      getFam1 (v1teamRow acc row).1.teamDraws (cellText true "team" row) =
        parsedOrOld (cellText false "draws" row)
          (getFam1 acc.1.teamDraws (cellText true "team" row)) ∧
      getFam1 (v1teamRow acc row).1.teamLosses (cellText true "team" row) =
        parsedOrOld (cellText false "losses" row)
          (getFam1 acc.1.teamLosses (cellText true "team" row)) ∧
      (v1teamRow acc row).2.teams = acc.2.teams + 1) ∧
    (∀ (acc : GaugeState × Counts) (row : List Cell),
      cellText false "player" row ≠ "" → cellText false "team" row ≠ "" →
      getFam2 (v1gkRow acc row).1.cleanSheets
          (cellText false "player" row, cellText false "team" row) =
        parsedOrOld (cellText false "clean_sheets" row)
          (getFam2 acc.1.cleanSheets (cellText false "player" row, cellText false "team" row)) ∧
      (v1gkRow acc row).2.gks = acc.2.gks +
        (if (parseDec (cellText false "clean_sheets" row)).isSome then 1 else 0)) ∧
    (∀ (acc : GaugeState × Counts) (row : List Cell),
      cellText true "team" row ≠ "" →
      getFam1 (v3teamRow acc row).1.teamPoints (cellText true "team" row) =
        some ((parseDec (cellText false "points" row)).getD 0)) := by
  refine ⟨?_, ?_, ?_, ?_⟩
  · intro acc row hp ht
    have hcond : ((cellText false "player" row == "") ||
        (cellText false "team" row == "")) = false := by
      simp [hp, ht]
    simp [v1playerRow, hcond, getFam2_condSet2]
  · intro acc row ht
    have hcond : (cellText true "team" row == "") = false := by simp [ht]
    simp [v1teamRow, hcond, getFam1_condSet1]
  · intro acc row hp ht
    by_cases hcs : cellText false "clean_sheets" row = ""
    · have hcond : ((cellText false "player" row == "") || (cellText false "team" row == "") ||
          (cellText false "clean_sheets" row == "")) = true := by
        simp [hcs]
      simp [v1gkRow, hcond, hcs, parsedOrOld, parseDec_empty]
    · have hcond : ((cellText false "player" row == "") || (cellText false "team" row == "") ||
          (cellText false "clean_sheets" row == "")) = false := by
        simp [hp, ht, hcs]
      cases hpd : parseDec (cellText false "clean_sheets" row) with
      | some v =>
          simp [v1gkRow, hcond, hpd, parsedOrOld, getFam2_setFam2_self]
      | none =>
          simp [v1gkRow, hcond, hpd, parsedOrOld]
  · intro acc row ht
    have hcond : (cellText true "team" row == "") = false := by simp [ht]
    simp [v3teamRow, hcond, getFam1_setFam1_self]

/-- Witness for C3 at the spec's scenario team row: the unparsable
`points` stays unset while the parsable `goals_for` is published. -/
theorem claim_C3_witness :
    getFam1 ((v1teamRow (initState, Counts.zero) teamRowLiv).1.teamPoints)
      (cellText true "team" teamRowLiv) = none ∧
    getFam1 ((v1teamRow (initState, Counts.zero) teamRowLiv).1.teamGoalsFor)
      (cellText true "team" teamRowLiv) = some 26 := by
  have h := claim_C3_parse_failure_field_omission.2.1 (initState, Counts.zero) teamRowLiv
    (by decide)
  refine ⟨?_, ?_⟩
  · rw [h.1]
    decide
  · rw [h.2.1]
    decide

/-! ## C5: comment-embedded tables -/

/-- C5 counterexample evaluation: because variant 3 classifies per
candidate document, moving a table between the visible document and a
comment changes the records when another table is present.  With the
goalkeeper table visible next to the player table, the combined document
matches the player schema and Alisson's goalkeeper row is published as a
top-scorer value 0; with the same goalkeeper table inside a comment, no
such top-scorer value exists — the two extractions differ. -/
theorem claim_C5_counterexample :
    getFam2 ((v3scrape 0 (fun _ => HttpResult.resp 200 (some ⟨[playerT1, gkT1], []⟩))
        initState).1.topScorer) ("Alisson", "Liverpool") = some 0 ∧
    getFam2 ((v3scrape 0 (fun _ => HttpResult.resp 200
        (some ⟨[playerT1], [CommentBlock.frag [gkT1]]⟩)) initState).1.topScorer)
      ("Alisson", "Liverpool") = none := by
  exact ⟨by decide, by decide⟩

/-- C5 amended: when the table is the only table in the input, wrapping
it inside an HTML comment yields exactly the same cycle result (records
and published gauge values) as placing it directly in the visible
document; and candidate documents are always processed with the visible
document first, then the comment-recovered fragments in the order their
comments appear. -/
theorem claim_C5_single_table_comment_equivalence (dur : ℚ) (g : GaugeState) (t : Table) :
    v3scrape dur (fun _ => HttpResult.resp 200 (some ⟨[t], []⟩)) g =
      v3scrape dur (fun _ => HttpResult.resp 200 (some ⟨[], [CommentBlock.frag [t]]⟩)) g ∧
    (∀ (inp : HtmlInput) (acc : GaugeState × Counts),
      v3extractDocs (v3allDocs inp) acc =
        v3extractDocs (extractCommentTables inp.comments) (v3docStep acc inp.visible)) := by
  exact ⟨rfl, fun inp acc => rfl⟩

/-! ## C6: classification by signature versus fixed table IDs -/

/-- C6 counterexample evaluation: variant 2 selects tables by the fixed
id string `stats_standard_9`; the same player table with its id changed
to `stats_standard_X` — its column signature untouched — yields no
records there, so classification in that variant is by table ID, not by
column presence. -/
theorem claim_C6_counterexample :
    (v2extract [reId "stats_standard_X" playerT1] initState).1.topScorer = [] ∧
    (v2extract [playerT1] initState).1.topScorer =
      [(("Erling Haaland", "Manchester City"), 27)] ∧
    matchesPlayer (reId "stats_standard_X" playerT1) = matchesPlayer playerT1 := by
  exact ⟨by decide, by decide, by decide⟩

/-- Variant 1's per-table pass never consults the id attribute. -/
theorem v1tableStep_reId (acc : GaugeState × Counts) (s : String) (t : Table) :
    v1tableStep acc (reId s t) = v1tableStep acc t := rfl

/-- Renaming every table id changes nothing about a variant-1 fold. -/
theorem v1foldl_reId (f : String → String) (ts : Doc) (acc : GaugeState × Counts) :
    (ts.map fun t => reId (f t.id) t).foldl v1tableStep acc = ts.foldl v1tableStep acc := by
  induction ts generalizing acc with
  | nil => rfl
  | cons hd tl ih =>
      rw [List.map_cons, List.foldl_cons, List.foldl_cons, v1tableStep_reId]
      exact ih _

/-- C6 amended: variant 1 classifies each table solely by
column-identifier presence — renaming every table's id attribute leaves
its whole extraction unchanged — whereas variant 2 (lines 426-495)
selects tables by three fixed id strings, so a table bearing none of
those ids contributes nothing there regardless of its column
signature. -/
theorem claim_C6_signature_classification :
    (∀ (ts : Doc) (f : String → String) (g : GaugeState),
      v1extract (ts.map fun t => reId (f t.id) t) g = v1extract ts g) ∧
    (∀ (t : Table) (ts : Doc) (g : GaugeState),
      t.id ≠ "stats_standard_9" → t.id ≠ "results2024-202591_overall" →
      t.id ≠ "stats_keeper_9" →
      v2extract (t :: ts) g = v2extract ts g) := by
  constructor
  · intro ts f g
    exact v1foldl_reId f ts (g, Counts.zero)
  · intro t ts g h1 h2 h3
    have e1 : (t.id == "stats_standard_9") = false := by simp [h1]
    have e2 : (t.id == "results2024-202591_overall") = false := by simp [h2]
    have e3 : (t.id == "stats_keeper_9") = false := by simp [h3]
    simp [v2extract, List.filter_cons, e1, e2, e3]

/-- Witness for C6 at a concrete table with an unmatched id. -/
theorem claim_C6_witness :
    v2extract [unrelatedT] initState = v2extract [] initState :=
  claim_C6_signature_classification.2 unrelatedT [] initState
    (by decide) (by decide) (by decide)

/-! ## C7: the retry loop and its backoff -/

/-- One step of `fetchHTML`: a succeeding attempt returns its document
immediately; a failing attempt sleeps `attempt*2` and retries. -/
theorem fetchHTMLAux_succ (f : Nat → HttpResult HtmlInput) (attempt left : Nat) :
    fetchHTMLAux f attempt (left + 1) =
      if v3fails (f attempt) = false then ⟨docOf (f attempt), [], 1⟩
      else ⟨(fetchHTMLAux f (attempt + 1) left).result,
        attempt * 2 :: (fetchHTMLAux f (attempt + 1) left).sleeps,
        (fetchHTMLAux f (attempt + 1) left).attemptsMade + 1⟩ := by
  rcases hf : f attempt with _ | ⟨s, b⟩
  · simp [fetchHTMLAux, hf, v3fails]
  · by_cases hs : (s == 200) = true
    · cases b with
      | some d => simp [fetchHTMLAux, hf, hs, v3fails, docOf]
      | none => simp [fetchHTMLAux, hf, hs, v3fails, docOf]
    · have hs' : (s == 200) = false := by simpa using hs
      simp [fetchHTMLAux, hf, hs', v3fails]

/-- One step of variant 1's retry loop: a 200 response breaks out; any
other outcome sleeps `attempt*2` and retries, carrying the latest
response pointer. -/
theorem v1fetchAux_succ (f : Nat → HttpResult Doc) (attempt left : Nat)
    (last : Option (Nat × Option Doc)) :
    v1fetchAux f attempt (left + 1) last =
      if respOk (respOf (f attempt)) = true then ⟨respOf (f attempt), [], 1⟩
      else ⟨(v1fetchAux f (attempt + 1) left (respOf (f attempt))).result,
        attempt * 2 :: (v1fetchAux f (attempt + 1) left (respOf (f attempt))).sleeps,
        (v1fetchAux f (attempt + 1) left (respOf (f attempt))).attemptsMade + 1⟩ := by
  by_cases hok : respOk (respOf (f attempt)) = true <;> simp [v1fetchAux, hok]

/-- Closed form of `fetchHTML` over its three attempts. -/
theorem fetchHTML_eq (f : Nat → HttpResult HtmlInput) :
    fetchHTML f =
      if v3fails (f 1) = false then ⟨docOf (f 1), [], 1⟩
      else if v3fails (f 2) = false then ⟨docOf (f 2), [2], 2⟩
      else if v3fails (f 3) = false then ⟨docOf (f 3), [2, 4], 3⟩
      else ⟨none, [2, 4, 6], 3⟩ := by
  have e1 := fetchHTMLAux_succ f 1 2
  have e2 := fetchHTMLAux_succ f 2 1
  have e3 := fetchHTMLAux_succ f 3 0
  norm_num at e1 e2 e3
  rw [fetchHTML, e1]
  by_cases h1 : v3fails (f 1) = false
  · simp [h1]
  · rw [if_neg h1, if_neg h1, e2]
    by_cases h2 : v3fails (f 2) = false
    · simp [h2]
    · rw [if_neg h2, if_neg h2, e3]
      by_cases h3 : v3fails (f 3) = false
      · simp [h3]
      · rw [if_neg h3, if_neg h3]
        rfl

/-- Closed form of variant 1's retry loop over its three attempts; the
final response pointer of the last attempt survives the loop. -/
theorem v1fetch_eq (f : Nat → HttpResult Doc) :
    v1fetch f =
      if respOk (respOf (f 1)) = true then ⟨respOf (f 1), [], 1⟩
      else if respOk (respOf (f 2)) = true then ⟨respOf (f 2), [2], 2⟩
      else if respOk (respOf (f 3)) = true then ⟨respOf (f 3), [2, 4], 3⟩
      else ⟨respOf (f 3), [2, 4, 6], 3⟩ := by
  have e1 := v1fetchAux_succ f 1 2 none
  have e2 := v1fetchAux_succ f 2 1 (respOf (f 1))
  have e3 := v1fetchAux_succ f 3 0 (respOf (f 2))
  norm_num at e1 e2 e3
  rw [v1fetch, e1]
  by_cases h1 : respOk (respOf (f 1)) = true
  · simp [h1]
  · rw [if_neg h1, if_neg h1, e2]
    by_cases h2 : respOk (respOf (f 2)) = true
    · simp [h2]
    · rw [if_neg h2, if_neg h2, e3]
      by_cases h3 : respOk (respOf (f 3)) = true
      · simp [h3]
      · rw [if_neg h3, if_neg h3]
        rfl

/-- A non-failing attempt always carries a parsed document. -/
theorem docOf_isSome (r : HttpResult HtmlInput) (h : v3fails r = false) :
    (docOf r).isSome = true := by
  rcases r with _ | ⟨s, b⟩
  · simp [v3fails] at h
  · rcases b with _ | d
    · simp [v3fails] at h
    · rfl

/-- A non-failing attempt never delivers a nil document. -/
theorem docOf_ne_none (r : HttpResult HtmlInput) (h : v3fails r = false) :
    docOf r ≠ none := by
  have hs := docOf_isSome r h
  intro hnone
  rw [hnone] at hs
  simp at hs

/-- C7 amended: both fetchers make at most 3 HTTP attempts; `fetchHTML`
retries exactly on network error, non-200 status, or document-parse
failure, and variant 1's loop exactly on network error or non-200; the
backoff delay between attempt n and the next is n*2 time-units, and the
delay also follows the final failed attempt, so an exhausted fetch
performs the sleeps [2, 4, 6] and ends in a terminal failure after
exactly 3 attempts. -/
theorem claim_C7_retry_and_backoff (f : Nat → HttpResult HtmlInput)
    (h : Nat → HttpResult Doc) :
    (fetchHTML f).attemptsMade ≤ 3 ∧
    ((fetchHTML f).result = none ↔
      v3fails (f 1) = true ∧ v3fails (f 2) = true ∧ v3fails (f 3) = true) ∧
    ((fetchHTML f).result = none →
      (fetchHTML f).attemptsMade = 3 ∧ (fetchHTML f).sleeps = [2, 4, 6]) ∧
    ((fetchHTML f).result.isSome = true →
      (fetchHTML f).sleeps = [2, 4, 6].take ((fetchHTML f).attemptsMade - 1)) ∧
    (v1fetch h).attemptsMade ≤ 3 ∧
    (respOk (v1fetch h).result = false ↔
      v1fails (h 1) = true ∧ v1fails (h 2) = true ∧ v1fails (h 3) = true) ∧
    (respOk (v1fetch h).result = false → (v1fetch h).sleeps = [2, 4, 6]) ∧
    (respOk (v1fetch h).result = true →
      (v1fetch h).sleeps = [2, 4, 6].take ((v1fetch h).attemptsMade - 1)) := by
  rw [fetchHTML_eq f, v1fetch_eq h]
  have hro : ∀ r : HttpResult Doc, respOk (respOf r) = !(v1fails r) := by
    intro r
    rcases r with _ | ⟨s, b⟩ <;> simp [respOk, respOf, v1fails]
  by_cases h1 : v3fails (f 1) = false
  all_goals by_cases h2 : v3fails (f 2) = false
  all_goals by_cases h3 : v3fails (f 3) = false
  all_goals by_cases k1 : respOk (respOf (h 1)) = true
  all_goals by_cases k2 : respOk (respOf (h 2)) = true
  all_goals by_cases k3 : respOk (respOf (h 3)) = true
  all_goals simp_all [Bool.not_eq_true, Bool.not_eq_false, hro, docOf_ne_none, docOf_isSome]

/-- C7 counterexample evaluation: with every attempt answering HTTP 200
but an unparsable body, `fetchHTML` performs all three attempts (so it
retries on something other than a network error or non-200 response)
and sleeps 2, 4 and then 6 time-units — the 6-unit delay coming after
the final failed attempt, where the claim says no delay occurs. -/
theorem claim_C7_counterexample :
    fetchHTML (fun _ => HttpResult.resp 200 none) =
      { result := none, sleeps := [2, 4, 6], attemptsMade := 3 } := rfl

/-- Witness for C7: an all-network-error run performs sleeps 2, 4, 6 in
both fetchers. -/
theorem claim_C7_witness :
    (fetchHTML (fun _ => HttpResult.netErr)).sleeps = [2, 4, 6] ∧
    (v1fetch (fun _ => HttpResult.netErr)).sleeps = [2, 4, 6] := by
  have hf := claim_C7_retry_and_backoff (fun _ => HttpResult.netErr)
    (fun _ => HttpResult.netErr)
  exact ⟨(hf.2.2.1 (by decide)).2, hf.2.2.2.2.2.2.1 (by decide)⟩

end PremStats
